import Mathlib

/-!
Verification of the Tedo Go client (package `tedo`).

Shallow embedding conventions:
* JSON documents are an inductive `Json` (numbers restricted to integers,
  which covers every numeric field of the client's record types).
* A raw HTTP response body is `RawBody`: either a well-formed JSON document
  (whose byte text is its canonical rendering) or a non-JSON byte string.
* Go's `encoding/json` unmarshalling into the client's flat structs is
  modelled field by field: object keys are processed in order, unknown keys
  are ignored, `null` is a no-op for scalar fields and clears optional
  (pointer) fields, and unmarshalling `null` at top level into a struct
  succeeds and leaves the struct untouched.  A destination decoder returns
  the updated value together with a success flag: a member whose value has
  the wrong type is skipped (the field keeps its previous value), decoding
  of the remaining members continues, and the error is reported at the end
  — so a failed unmarshal can leave the destination partially written,
  exactly as `json.Unmarshal` does.  A body that is not valid JSON fails
  the syntax pre-scan and writes nothing.  For the error-body path
  (`parseError`) only the success/failure of the unmarshal matters, because
  the Go code overwrites the struct wholesale on failure; that decoder
  therefore returns an `Option`.  Key matching is by exact json-tag name
  (the case-insensitive fallback of `encoding/json` is not exercised by any
  claim).  `time.Time` values are kept as their RFC3339 JSON strings.
* Go errors are the inductive `GoErr`: a structured `*tedo.Error`, a
  `fmt.Errorf("...: %w", e)` wrapper (which a direct type assertion does not
  see through), or any other plain error.  A Go `error` variable that may be
  `nil` is `Option GoErr`.
* `Client.request` is embedded as a pure function from the client, the call
  arguments and a transport oracle (`TransportResult`, the response or a
  transport failure) to the client state after the call, the outgoing
  request it built, the final value of the decode destination and the
  returned error.  Go's in-place mutation of the destination becomes
  explicit state passing.  JSON marshalling of the parameter structs is a
  total function per struct (those structs contain no value that
  `json.Marshal` can reject).
-/

namespace Tedo

/-- JSON documents; numbers are integers, which is exact for every numeric
field the client (un)marshals. -/
inductive Json where
  | null : Json
  | bool : Bool → Json
  | num : Int → Json
  | str : String → Json
  | arr : List Json → Json
  | obj : List (String × Json) → Json
deriving Repr

/-- Escape one character for a JSON string literal (compact form). -/
def escapeChar (c : Char) : String :=
  if c = '"' then "\\\""
  else if c = '\\' then "\\\\"
  else if c = '\n' then "\\n"
  else if c = '\t' then "\\t"
  else if c = '\r' then "\\r"
  else String.singleton c

/-- Escape a string for inclusion in a JSON string literal. -/
def escape (s : String) : String :=
  String.join (s.data.map escapeChar)

mutual

/-- Compact rendering of a JSON document, the canonical byte text of a
well-formed body. -/
def Json.render : Json → String
  | .null => "null"
  | .bool true => "true"
  | .bool false => "false"
  | .num n => toString n
  | .str s => "\"" ++ escape s ++ "\""
  | .arr xs => "[" ++ Json.renderList xs ++ "]"
  | .obj fs => "\x7b" ++ Json.renderObj fs ++ "\x7d"

/-- Render a comma-separated list of JSON values. -/
def Json.renderList : List Json → String
  | [] => ""
  | [x] => Json.render x
  | x :: xs => Json.render x ++ "," ++ Json.renderList xs

/-- Render the comma-separated members of a JSON object. -/
def Json.renderObj : List (String × Json) → String
  | [] => ""
  | [(k, v)] => "\"" ++ escape k ++ "\":" ++ Json.render v
  | (k, v) :: fs => "\"" ++ escape k ++ "\":" ++ Json.render v ++ "," ++ Json.renderObj fs

end

/-- A raw response body: a well-formed JSON document, or a byte string that
is not valid JSON (this includes the empty body). -/
inductive RawBody where
  | json : Json → RawBody
  | invalid : String → RawBody
deriving Repr

/-- The byte text of a raw body (`string(body)` in Go). -/
def RawBody.text : RawBody → String
  | .json j => j.render
  | .invalid s => s

/-- `tedo.Error`: the structured API error.  `StatusCode` carries the json
tag `"-"` and is never touched by unmarshalling. -/
structure Error where
  statusCode : Nat
  code : String
  message : String
  field : String
deriving Repr, DecidableEq

/-- The zero value `Error{}` of Go. -/
def Error.zero : Error := ⟨0, "", "", ""⟩

/-- Unmarshal a JSON value into a Go `string` field holding `cur`:
a JSON string replaces it, `null` is a no-op, anything else is a type
error. -/
def setStr (v : Json) (cur : String) : Option String :=
  match v with
  | .str s => some s
  | .null => some cur
  | _ => none

/-- Process one object member against the fields of `tedo.Error`
(`code`, `message`, `field`; `StatusCode` is json-ignored). -/
def applyErrorField (e : Error) (kv : String × Json) : Option Error :=
  if kv.1 = "code" then (setStr kv.2 e.code).map fun s => { e with code := s }
  else if kv.1 = "message" then (setStr kv.2 e.message).map fun s => { e with message := s }
  else if kv.1 = "field" then (setStr kv.2 e.field).map fun s => { e with field := s }
  else some e

/-- `json.Unmarshal(body, &apiErr)` for a zero `tedo.Error`: succeeds on a
JSON object (members processed in order) and on top-level `null`; every
other body fails. -/
def unmarshalGoError : RawBody → Option Error
  | .json (.obj fs) => List.foldlM applyErrorField Error.zero fs
  | .json .null => some Error.zero
  | _ => none

/-- `parseError(statusCode, body)` from `tedo.go`: decode the structured
error body, fall back to the sentinel `unknown_error` carrying the raw body
text, and attach the HTTP status in both cases. -/
def parseError (statusCode : Nat) (body : RawBody) : Error :=
  match unmarshalGoError body with
  | some e => { e with statusCode := statusCode }
  | none => { statusCode := statusCode, code := "unknown_error", message := body.text, field := "" }

/-- Go `error` values reachable in this client: a structured `*tedo.Error`,
a `fmt.Errorf("msg: %w", inner)` wrapper, or some other plain error
(transport failures, json decode errors, ...). -/
inductive GoErr where
  | api : Error → GoErr
  | wrapped : String → GoErr → GoErr
  | other : String → GoErr
deriving Repr, DecidableEq

/-- `IsNotFound`: direct type assertion to `*Error`, then compare the
status; `false` for `nil` and for every other error shape. -/
def IsNotFound : Option GoErr → Bool
  | some (.api e) => e.statusCode == 404
  | _ => false

/-- `IsValidationError`: direct type assertion to `*Error`, then compare the
status; `false` for `nil` and for every other error shape. -/
def IsValidationError : Option GoErr → Bool
  | some (.api e) => e.statusCode == 400
  | _ => false

/-- `IsUnauthorized`: direct type assertion to `*Error`, then compare the
status; `false` for `nil` and for every other error shape. -/
def IsUnauthorized : Option GoErr → Bool
  | some (.api e) => e.statusCode == 401
  | _ => false

/-- The Tedo API client: API key, base URL and the underlying HTTP client
(modelled by an opaque handle, since only its identity matters to the
claims). -/
structure Client where
  apiKey : String
  baseURL : String
  httpClient : Nat
deriving Repr, DecidableEq

/-- `defaultBaseURL` from `tedo.go`. -/
def defaultBaseURL : String := "https://api.tedo.ai/v1"

/-- `NewClient(apiKey)`; handle 0 stands for the default `http.Client`
with the 30s timeout. -/
def NewClient (apiKey : String) : Client :=
  { apiKey := apiKey, baseURL := defaultBaseURL, httpClient := 0 }

/-- An HTTP response as seen after `io.ReadAll`: status code and the full
raw body. -/
structure Response where
  statusCode : Nat
  body : RawBody
deriving Repr

/-- The outcome of `c.httpClient.Do(req)` followed by reading the body:
either a transport-level failure (connection error, read error, ...) or a
complete response. -/
inductive TransportResult where
  | failure : String → TransportResult
  | response : Response → TransportResult
deriving Repr

/-- The outgoing HTTP request `request` builds before handing it to the
transport. -/
structure OutgoingRequest where
  method : String
  url : String
  headers : List (String × String)
  body : Option Json
deriving Repr

/-- The headers `request` sets on every call. -/
def requestHeaders (apiKey : String) : List (String × String) :=
  [("Authorization", "Bearer " ++ apiKey),
   ("Content-Type", "application/json"),
   ("Accept", "application/json")]

/-- `json.Unmarshal(respBody, result)` for a destination of type `α` with
decoder `decode`: a body that is not valid JSON fails the syntax pre-scan
and writes nothing; a well-formed document is decoded into the current
destination value, which on failure holds whatever the partial unmarshal
wrote. -/
def unmarshalBody {α : Type} (decode : Json → α → α × Bool) (body : RawBody) (d : α) : α × Bool :=
  match body with
  | .json j => decode j d
  | .invalid _ => (d, false)

/-- The full result of one `Client.request` invocation: the client state
after the call, the request that was sent, the final value of the decode
destination, and the returned error (`none` = `nil`). -/
structure RequestResult (α : Type) where
  client : Client
  sent : OutgoingRequest
  dest : Option α
  err : Option GoErr
deriving Repr

/-- `Client.request(ctx, method, path, body, result)` from `tedo.go`,
with the network modelled by the oracle `t` and the destination passed as
explicit state (`none` = `result == nil`).  Marshalling of the body cannot
fail for the client's parameter structs, so the body arrives already as
JSON. -/
def request {α : Type} (decode : Json → α → α × Bool) (c : Client)
    (method path : String) (body : Option Json) (t : TransportResult)
    (dest : Option α) : RequestResult α :=
  let req : OutgoingRequest :=
    { method := method, url := c.baseURL ++ path,
      headers := requestHeaders c.apiKey, body := body }
  match t with
  | .failure msg =>
      { client := c, sent := req, dest := dest,
        err := some (.wrapped "do request" (.other msg)) }
  | .response resp =>
      if 400 ≤ resp.statusCode then
        { client := c, sent := req, dest := dest,
          err := some (.api (parseError resp.statusCode resp.body)) }
      else
        match dest with
        | none => { client := c, sent := req, dest := none, err := none }
        | some d =>
            if 0 < resp.body.text.length then
              let r := unmarshalBody decode resp.body d
              if r.2 then
                { client := c, sent := req, dest := some r.1, err := none }
              else
                { client := c, sent := req, dest := some r.1,
                  err := some (.wrapped "decode response" (.other "json unmarshal failure")) }
            else
              { client := c, sent := req, dest := some d, err := none }

/-- Store a JSON value into a Go `string` destination field holding `cur`:
a string replaces it, `null` is a no-op; a mismatched value is skipped
(the field keeps its value) and the error recorded in the flag. -/
def storeStr (v : Json) (cur : String) : String × Bool :=
  match v with
  | .str s => (s, true)
  | .null => (cur, true)
  | _ => (cur, false)

/-- Store a JSON value into a Go `int` destination field holding `cur`;
a mismatched value is skipped and the error recorded. -/
def storeNum (v : Json) (cur : Int) : Int × Bool :=
  match v with
  | .num n => (n, true)
  | .null => (cur, true)
  | _ => (cur, false)

/-- Store a JSON value into a Go pointer-to-scalar field rendered as
`Option String` (`*time.Time` kept as its RFC3339 string): `null` clears
the pointer, a string allocates and fills it; a mismatched value is skipped
and the error recorded. -/
def storeOptStr (v : Json) (cur : Option String) : Option String × Bool :=
  match v with
  | .null => (none, true)
  | .str s => (some s, true)
  | _ => (cur, false)

/-- A JSON value as a Go `string` map element (`null` yields the zero
value). -/
def strVal : Json → Option String
  | .str s => some s
  | .null => some ""
  | _ => none

/-- Store a key in an association-list map, overwriting an existing
entry. -/
def mapPut (m : List (String × String)) (k v : String) : List (String × String) :=
  if m.any (fun kv => kv.1 = k) then m.map (fun kv => if kv.1 = k then (k, v) else kv)
  else m ++ [(k, v)]

/-- Store a JSON value into a `map[string]string` field holding `cur`:
`null` sets the map to nil; an object merges its members (in order) into
the existing map, skipping a mismatched member value and recording the
error; any other value is a type error writing nothing. -/
def storeMap (v : Json) (cur : List (String × String)) : List (String × String) × Bool :=
  match v with
  | .null => ([], true)
  | .obj kvs =>
      kvs.foldl (fun acc kv =>
        match strVal kv.2 with
        | some s => (mapPut acc.1 kv.1 s, acc.2)
        | none => (acc.1, false)) (cur, true)
  | _ => (cur, false)

/-- `tedo.Subscription` (timestamps kept as their RFC3339 JSON strings;
`CanceledAt *time.Time` is the optional one). -/
structure Subscription where
  id : String
  customerID : String
  priceID : String
  status : String
  quantity : Int
  startedAt : String
  canceledAt : Option String
  metadata : List (String × String)
  createdAt : String
deriving Repr, DecidableEq

/-- The zero value `Subscription{}`. -/
def Subscription.zero : Subscription := ⟨"", "", "", "", 0, "", none, [], ""⟩

/-- Process one object member against the fields of `tedo.Subscription`,
threading the partially-written value and the error flag. -/
def applySubscriptionField (acc : Subscription × Bool) (kv : String × Json) : Subscription × Bool :=
  let s := acc.1
  if kv.1 = "id" then
    let r := storeStr kv.2 s.id; ({ s with id := r.1 }, acc.2 && r.2)
  else if kv.1 = "customer_id" then
    let r := storeStr kv.2 s.customerID; ({ s with customerID := r.1 }, acc.2 && r.2)
  else if kv.1 = "price_id" then
    let r := storeStr kv.2 s.priceID; ({ s with priceID := r.1 }, acc.2 && r.2)
  else if kv.1 = "status" then
    let r := storeStr kv.2 s.status; ({ s with status := r.1 }, acc.2 && r.2)
  else if kv.1 = "quantity" then
    let r := storeNum kv.2 s.quantity; ({ s with quantity := r.1 }, acc.2 && r.2)
  else if kv.1 = "started_at" then
    let r := storeStr kv.2 s.startedAt; ({ s with startedAt := r.1 }, acc.2 && r.2)
  else if kv.1 = "canceled_at" then
    let r := storeOptStr kv.2 s.canceledAt; ({ s with canceledAt := r.1 }, acc.2 && r.2)
  else if kv.1 = "metadata" then
    let r := storeMap kv.2 s.metadata; ({ s with metadata := r.1 }, acc.2 && r.2)
  else if kv.1 = "created_at" then
    let r := storeStr kv.2 s.createdAt; ({ s with createdAt := r.1 }, acc.2 && r.2)
  else acc

/-- `json.Unmarshal` of a document into a `tedo.Subscription` value:
mismatched members are skipped, the rest of the object is decoded, and the
flag reports whether an error occurred. -/
def decodeSubscription (v : Json) (s : Subscription) : Subscription × Bool :=
  match v with
  | .obj fs => fs.foldl applySubscriptionField (s, true)
  | .null => (s, true)
  | _ => (s, false)

/-- Store a JSON value into a `[]Subscription` field: `null` sets the slice
to nil; an array rebuilds the slice decoding each element into a zero
`Subscription` (partially on element errors); any other value is a type
error writing nothing. -/
def storeSubs (v : Json) (cur : List Subscription) : List Subscription × Bool :=
  match v with
  | .null => ([], true)
  | .arr xs =>
      let rs := xs.map (fun j => decodeSubscription j Subscription.zero)
      (rs.map (fun r => r.1), rs.all (fun r => r.2))
  | _ => (cur, false)

/-- `tedo.Customer` (timestamps kept as their RFC3339 JSON strings). -/
structure Customer where
  id : String
  email : String
  name : String
  externalID : String
  metadata : List (String × String)
  subscriptions : List Subscription
  createdAt : String
  updatedAt : String
deriving Repr, DecidableEq

/-- The zero value `Customer{}`. -/
def Customer.zero : Customer := ⟨"", "", "", "", [], [], "", ""⟩

/-- Process one object member against the fields of `tedo.Customer`,
threading the partially-written value and the error flag. -/
def applyCustomerField (acc : Customer × Bool) (kv : String × Json) : Customer × Bool :=
  let c := acc.1
  if kv.1 = "id" then
    let r := storeStr kv.2 c.id; ({ c with id := r.1 }, acc.2 && r.2)
  else if kv.1 = "email" then
    let r := storeStr kv.2 c.email; ({ c with email := r.1 }, acc.2 && r.2)
  else if kv.1 = "name" then
    let r := storeStr kv.2 c.name; ({ c with name := r.1 }, acc.2 && r.2)
  else if kv.1 = "external_id" then
    let r := storeStr kv.2 c.externalID; ({ c with externalID := r.1 }, acc.2 && r.2)
  else if kv.1 = "metadata" then
    let r := storeMap kv.2 c.metadata; ({ c with metadata := r.1 }, acc.2 && r.2)
  else if kv.1 = "subscriptions" then
    let r := storeSubs kv.2 c.subscriptions; ({ c with subscriptions := r.1 }, acc.2 && r.2)
  else if kv.1 = "created_at" then
    let r := storeStr kv.2 c.createdAt; ({ c with createdAt := r.1 }, acc.2 && r.2)
  else if kv.1 = "updated_at" then
    let r := storeStr kv.2 c.updatedAt; ({ c with updatedAt := r.1 }, acc.2 && r.2)
  else acc

/-- `json.Unmarshal` of a document into a `tedo.Customer` value:
mismatched members are skipped, the rest of the object is decoded, and the
flag reports whether an error occurred. -/
def decodeCustomer (v : Json) (c : Customer) : Customer × Bool :=
  match v with
  | .obj fs => fs.foldl applyCustomerField (c, true)
  | .null => (c, true)
  | _ => (c, false)

/-- `tedo.CustomerList`. -/
structure CustomerList where
  customers : List Customer
  total : Int
  nextCursor : String
deriving Repr, DecidableEq

/-- The zero value `CustomerList{}`. -/
def CustomerList.zero : CustomerList := ⟨[], 0, ""⟩

/-- Store a JSON value into a `[]Customer` field: `null` sets the slice to
nil; an array rebuilds the slice decoding each element into a zero
`Customer`; any other value is a type error writing nothing. -/
def storeCustomers (v : Json) (cur : List Customer) : List Customer × Bool :=
  match v with
  | .null => ([], true)
  | .arr xs =>
      let rs := xs.map (fun j => decodeCustomer j Customer.zero)
      (rs.map (fun r => r.1), rs.all (fun r => r.2))
  | _ => (cur, false)

/-- Process one object member against the fields of `tedo.CustomerList`,
threading the partially-written value and the error flag. -/
def applyCustomerListField (acc : CustomerList × Bool) (kv : String × Json) : CustomerList × Bool :=
  let l := acc.1
  if kv.1 = "customers" then
    let r := storeCustomers kv.2 l.customers; ({ l with customers := r.1 }, acc.2 && r.2)
  else if kv.1 = "total" then
    let r := storeNum kv.2 l.total; ({ l with total := r.1 }, acc.2 && r.2)
  else if kv.1 = "next_cursor" then
    let r := storeStr kv.2 l.nextCursor; ({ l with nextCursor := r.1 }, acc.2 && r.2)
  else acc

/-- `json.Unmarshal` of a document into a `tedo.CustomerList` value. -/
def decodeCustomerList (v : Json) (l : CustomerList) : CustomerList × Bool :=
  match v with
  | .obj fs => fs.foldl applyCustomerListField (l, true)
  | .null => (l, true)
  | _ => (l, false)

/-- `tedo.UsageSummary` (period bounds are plain strings in the source). -/
structure UsageSummary where
  subscriptionID : String
  productKey : String
  totalUsage : Int
  recordCount : Int
  periodStart : String
  periodEnd : String
deriving Repr, DecidableEq

/-- The zero value `UsageSummary{}`. -/
def UsageSummary.zero : UsageSummary := ⟨"", "", 0, 0, "", ""⟩

/-- Process one object member against the fields of `tedo.UsageSummary`,
threading the partially-written value and the error flag. -/
def applyUsageSummaryField (acc : UsageSummary × Bool) (kv : String × Json) : UsageSummary × Bool :=
  let u := acc.1
  if kv.1 = "subscription_id" then
    let r := storeStr kv.2 u.subscriptionID; ({ u with subscriptionID := r.1 }, acc.2 && r.2)
  else if kv.1 = "product_key" then
    let r := storeStr kv.2 u.productKey; ({ u with productKey := r.1 }, acc.2 && r.2)
  else if kv.1 = "total_usage" then
    let r := storeNum kv.2 u.totalUsage; ({ u with totalUsage := r.1 }, acc.2 && r.2)
  else if kv.1 = "record_count" then
    let r := storeNum kv.2 u.recordCount; ({ u with recordCount := r.1 }, acc.2 && r.2)
  else if kv.1 = "period_start" then
    let r := storeStr kv.2 u.periodStart; ({ u with periodStart := r.1 }, acc.2 && r.2)
  else if kv.1 = "period_end" then
    let r := storeStr kv.2 u.periodEnd; ({ u with periodEnd := r.1 }, acc.2 && r.2)
  else acc

/-- `json.Unmarshal` of a document into a `tedo.UsageSummary` value:
mismatched members are skipped, the rest of the object is decoded, and the
flag reports whether an error occurred. -/
def decodeUsageSummary (v : Json) (u : UsageSummary) : UsageSummary × Bool :=
  match v with
  | .obj fs => fs.foldl applyUsageSummaryField (u, true)
  | .null => (u, true)
  | _ => (u, false)

/-- Sorted insertion by key, for Go's sorted-key marshalling of maps. -/
def insertByKey (kv : String × String) : List (String × String) → List (String × String)
  | [] => [kv]
  | x :: xs => if kv.1 ≤ x.1 then kv :: x :: xs else x :: insertByKey kv xs

/-- Sort map entries by key (`json.Marshal` emits map keys sorted). -/
def sortByKey (m : List (String × String)) : List (String × String) :=
  m.foldr insertByKey []

/-- `json.Marshal` of a `map[string]string` value. -/
def metaJson (m : List (String × String)) : Json :=
  .obj ((sortByKey m).map fun kv => (kv.1, Json.str kv.2))

/-- `tedo.CreateCustomerParams` (the nil and the empty metadata map are
identified, as `omitempty` marshalling cannot tell them apart). -/
structure CreateCustomerParams where
  email : String
  name : String
  externalID : String
  metadata : List (String × String)
deriving Repr, DecidableEq

/-- `json.Marshal` of `CreateCustomerParams`: `email` always, the
`omitempty` fields only when non-empty, in declaration order. -/
def CreateCustomerParams.toJson (p : CreateCustomerParams) : Json :=
  .obj ([("email", Json.str p.email)]
    ++ (if p.name = "" then [] else [("name", Json.str p.name)])
    ++ (if p.externalID = "" then [] else [("external_id", Json.str p.externalID)])
    ++ (if p.metadata = [] then [] else [("metadata", metaJson p.metadata)]))

/-- `tedo.UpdateCustomerParams`: pointer fields are `Option`s (`none` =
nil pointer). -/
structure UpdateCustomerParams where
  email : Option String
  name : Option String
  externalID : Option String
  metadata : List (String × String)
deriving Repr, DecidableEq

/-- `json.Marshal` of `UpdateCustomerParams`: each `omitempty` pointer field
is emitted exactly when the pointer is non-nil (a set pointer is never
"empty", whatever it points to), the `omitempty` map when non-empty. -/
def UpdateCustomerParams.toJson (p : UpdateCustomerParams) : Json :=
  .obj ((match p.email with | some v => [("email", Json.str v)] | none => [])
    ++ (match p.name with | some v => [("name", Json.str v)] | none => [])
    ++ (match p.externalID with | some v => [("external_id", Json.str v)] | none => [])
    ++ (if p.metadata = [] then [] else [("metadata", metaJson p.metadata)]))

/-- `tedo.UpdatePlanParams`: four pointer fields. -/
structure UpdatePlanParams where
  key : Option String
  name : Option String
  description : Option String
  isActive : Option Bool
deriving Repr, DecidableEq

/-- `json.Marshal` of `UpdatePlanParams`: each `omitempty` pointer field is
emitted exactly when the pointer is non-nil (`*bool` pointing at `false`
included). -/
def UpdatePlanParams.toJson (p : UpdatePlanParams) : Json :=
  .obj ((match p.key with | some v => [("key", Json.str v)] | none => [])
    ++ (match p.name with | some v => [("name", Json.str v)] | none => [])
    ++ (match p.description with | some v => [("description", Json.str v)] | none => [])
    ++ (match p.isActive with | some v => [("is_active", Json.bool v)] | none => []))

/-- `tedo.CreateSubscriptionParams`. -/
structure CreateSubscriptionParams where
  customerID : String
  priceID : String
  planKey : String
  priceKey : String
  quantity : Int
  metadata : List (String × String)
deriving Repr, DecidableEq

/-- `json.Marshal` of `CreateSubscriptionParams`: `customer_id` always, the
`omitempty` fields only when non-zero, in declaration order. -/
def CreateSubscriptionParams.toJson (p : CreateSubscriptionParams) : Json :=
  .obj ([("customer_id", Json.str p.customerID)]
    ++ (if p.priceID = "" then [] else [("price_id", Json.str p.priceID)])
    ++ (if p.planKey = "" then [] else [("plan_key", Json.str p.planKey)])
    ++ (if p.priceKey = "" then [] else [("price_key", Json.str p.priceKey)])
    ++ (if p.quantity = 0 then [] else [("quantity", Json.num p.quantity)])
    ++ (if p.metadata = [] then [] else [("metadata", metaJson p.metadata)]))

/-- Plan/price keys for Tedo's built-in billing plans. -/
def GuestPlanKey : String := "guest"

/-- Built-in guest price key. -/
def GuestPriceKey : String := "guest_monthly_EUR"

/-- Built-in free plan key. -/
def FreePlanKey : String := "free"

/-- Built-in free price key. -/
def FreePriceKey : String := "free_monthly_EUR"

/-- Built-in basic plan key. -/
def BasicPlanKey : String := "basic"

/-- Built-in basic price key. -/
def BasicPriceKey : String := "basic_monthly_EUR"

/-- `BillingService.CreateCustomer`: POST `/billing/v1/customers`, decode
the response into a zero `Customer`; the pair is the sent request and the
Go `( *Customer, error)` result. -/
def CreateCustomer (c : Client) (p : CreateCustomerParams) (t : TransportResult) :
    OutgoingRequest × (GoErr ⊕ Customer) :=
  let r := request decodeCustomer c "POST" "/billing/v1/customers" (some p.toJson) t (some Customer.zero)
  (r.sent, match r.err with
    | some e => .inl e
    | none => .inr (r.dest.getD Customer.zero))

/-- `BillingService.CreateCustomerForUser`: create a customer whose
`ExternalID` is `"user:{userID}"`, returning the customer ID, and wrapping
any failure with `fmt.Errorf`. -/
def CreateCustomerForUser (c : Client) (userID : Int) (email name : String)
    (t : TransportResult) : OutgoingRequest × (String × Option GoErr) :=
  let r := CreateCustomer c
    { email := email, name := name, externalID := "user:" ++ toString userID, metadata := [] } t
  (r.1, match r.2 with
    | .inl e => ("", some (.wrapped "failed to create billing customer for user" e))
    | .inr cust => (cust.id, none))

/-- `tedo.ListCustomersParams` (`Limit` is a Go `int`). -/
structure ListCustomersParams where
  limit : Int
  cursor : String
deriving Repr, DecidableEq

/-- The path `BillingService.ListCustomers` builds: base customers path,
then `limit=` when positive, then `cursor=` when non-empty, `&`-joined and
`?`-prefixed only when the query is non-empty. -/
def listCustomersPath : Option ListCustomersParams → String
  | none => "/billing/v1/customers"
  | some p =>
      let q := if 0 < p.limit then "limit=" ++ toString p.limit else ""
      let q := if p.cursor ≠ "" then (if q ≠ "" then q ++ "&" else q) ++ "cursor=" ++ p.cursor else q
      if q ≠ "" then "/billing/v1/customers" ++ "?" ++ q else "/billing/v1/customers"

/-- `BillingService.ListCustomers`: GET the constructed path with no body,
decode into a zero `CustomerList`. -/
def ListCustomers (c : Client) (params : Option ListCustomersParams) (t : TransportResult) :
    OutgoingRequest × (GoErr ⊕ CustomerList) :=
  let r := request decodeCustomerList c "GET" (listCustomersPath params) none t (some CustomerList.zero)
  (r.sent, match r.err with
    | some e => .inl e
    | none => .inr (r.dest.getD CustomerList.zero))

/-- `BillingService.UpdateCustomer`: PATCH `/billing/v1/customers/{id}`
with the marshalled partial-update params. -/
def UpdateCustomer (c : Client) (id : String) (p : UpdateCustomerParams) (t : TransportResult) :
    OutgoingRequest × (GoErr ⊕ Customer) :=
  let r := request decodeCustomer c "PATCH" ("/billing/v1/customers/" ++ id) (some p.toJson) t (some Customer.zero)
  (r.sent, match r.err with
    | some e => .inl e
    | none => .inr (r.dest.getD Customer.zero))

/-- `BillingService.CreateSubscription`: POST `/billing/v1/subscriptions`,
decode into a zero `Subscription`. -/
def CreateSubscription (c : Client) (p : CreateSubscriptionParams) (t : TransportResult) :
    OutgoingRequest × (GoErr ⊕ Subscription) :=
  let r := request decodeSubscription c "POST" "/billing/v1/subscriptions" (some p.toJson) t (some Subscription.zero)
  (r.sent, match r.err with
    | some e => .inl e
    | none => .inr (r.dest.getD Subscription.zero))

/-- `BillingService.createSubscriptionWithPlan`: create a subscription by
customer, plan key and price key, return its ID, wrapping any failure with
`fmt.Errorf`. -/
def createSubscriptionWithPlan (c : Client) (customerID planKey priceKey : String)
    (t : TransportResult) : OutgoingRequest × (String × Option GoErr) :=
  let r := CreateSubscription c
    { customerID := customerID, priceID := "", planKey := planKey, priceKey := priceKey,
      quantity := 0, metadata := [] } t
  (r.1, match r.2 with
    | .inl e => ("", some (.wrapped "failed to create subscription" e))
    | .inr sub => (sub.id, none))

/-- `BillingService.CreateSubscriptionForWorkspace`: free-tier subscription
for a workspace. -/
def CreateSubscriptionForWorkspace (c : Client) (customerID workspaceID : String)
    (t : TransportResult) : OutgoingRequest × (String × Option GoErr) :=
  createSubscriptionWithPlan c customerID FreePlanKey FreePriceKey t

/-- `BillingService.CreateSubscriptionForGuestWorkspace`: guest-tier
subscription for a workspace. -/
def CreateSubscriptionForGuestWorkspace (c : Client) (customerID workspaceID : String)
    (t : TransportResult) : OutgoingRequest × (String × Option GoErr) :=
  createSubscriptionWithPlan c customerID GuestPlanKey GuestPriceKey t

/-- `BillingService.CreateSubscriptionForBasicPlan`. -/
def CreateSubscriptionForBasicPlan (c : Client) (customerID : String)
    (t : TransportResult) : OutgoingRequest × (String × Option GoErr) :=
  createSubscriptionWithPlan c customerID BasicPlanKey BasicPriceKey t

/-! Helper lemmas. -/

/-- A string of length zero is the empty string. -/
theorem eq_empty_of_length_zero (s : String) (h : s.length = 0) : s = "" := by
  apply String.ext
  have h2 : s.data.length = 0 := h
  simpa using List.length_eq_zero.mp h2

/-- Appending to a non-empty string stays non-empty. -/
theorem append_ne_empty_left (s t : String) (h : s ≠ "") : s ++ t ≠ "" := by
  intro hst
  apply h
  apply eq_empty_of_length_zero
  have h3 := congrArg String.length hst
  rw [String.length_append] at h3
  simp [String.length_empty] at h3
  omega

/-- `parseError` always attaches the given HTTP status. -/
theorem parseError_statusCode (s : Nat) (b : RawBody) : (parseError s b).statusCode = s := by
  unfold parseError
  cases unmarshalGoError b <;> rfl

/-- The outgoing request `request` builds is the same in every branch:
the given method, the base URL extended by the path, the three standard
headers, and the marshalled body. -/
theorem request_sent {α : Type} (decode : Json → α → α × Bool) (c : Client)
    (method path : String) (body : Option Json) (t : TransportResult) (dest : Option α) :
    (request decode c method path body t dest).sent =
      { method := method, url := c.baseURL ++ path,
        headers := requestHeaders c.apiKey, body := body } := by
  rcases t with msg | resp
  · rfl
  · by_cases h4 : 400 ≤ resp.statusCode
    · simp [request, h4]
    · rcases dest with _ | d
      · simp [request, h4]
      · by_cases hb : 0 < resp.body.text.length
        · cases hf : (unmarshalBody decode resp.body d).2 <;>
            simp [request, h4, hb, hf]
        · simp [request, h4, hb]

/-- On a response with an error status, `request` returns the parsed error
and leaves the destination exactly as supplied. -/
theorem request_error_branch {α : Type} (decode : Json → α → α × Bool) (c : Client)
    (method path : String) (body : Option Json) (resp : Response) (dest : Option α)
    (h4 : 400 ≤ resp.statusCode) :
    (request decode c method path body (.response resp) dest).err =
      some (.api (parseError resp.statusCode resp.body)) ∧
    (request decode c method path body (.response resp) dest).dest = dest := by
  constructor <;> simp [request, h4]

/-! Claim theorems. -/

/-- C3: `IsNotFound` is true exactly on a structured API `Error` with
status 404, `IsValidationError` exactly on status 400, `IsUnauthorized`
exactly on status 401; all three are false (and, being total functions,
cannot panic) on `nil` and on any error value that is not a structured API
`Error`, such as transport failures or wrapped errors. -/
theorem classification_helpers_by_status (e : Option GoErr) :
    (IsNotFound e = true ↔ ∃ r, e = some (GoErr.api r) ∧ r.statusCode = 404) ∧
    (IsValidationError e = true ↔ ∃ r, e = some (GoErr.api r) ∧ r.statusCode = 400) ∧
    (IsUnauthorized e = true ↔ ∃ r, e = some (GoErr.api r) ∧ r.statusCode = 401) ∧
    ((∀ r : Error, e ≠ some (GoErr.api r)) →
      IsNotFound e = false ∧ IsValidationError e = false ∧ IsUnauthorized e = false) := by
  rcases e with _ | g
  · simp [IsNotFound, IsValidationError, IsUnauthorized]
  · cases g with
    | api r => simp [IsNotFound, IsValidationError, IsUnauthorized]
    | wrapped m inner => simp [IsNotFound, IsValidationError, IsUnauthorized]
    | other m => simp [IsNotFound, IsValidationError, IsUnauthorized]

/-- Witness for C3 at concrete error values: a 404 API error is classified
not-found, while a transport failure and `nil` are classified as nothing. -/
theorem classification_helpers_by_status_witness :
    IsNotFound (some (GoErr.api ⟨404, "not_found", "no such customer", ""⟩)) = true ∧
    IsNotFound (some (GoErr.other "dial tcp: connection refused")) = false ∧
    IsValidationError (some (GoErr.other "dial tcp: connection refused")) = false ∧
    IsUnauthorized none = false := by
  refine ⟨?_, ?_, ?_, ?_⟩
  · exact (classification_helpers_by_status _).1.mpr ⟨_, rfl, rfl⟩
  · exact ((classification_helpers_by_status (some (GoErr.other "dial tcp: connection refused"))).2.2.2
      (by intro r h; cases h)).1
  · exact ((classification_helpers_by_status (some (GoErr.other "dial tcp: connection refused"))).2.2.2
      (by intro r h; cases h)).2.1
  · exact ((classification_helpers_by_status none).2.2.2 (by intro r h; cases h)).2.2

/-- C10: the `workspaceID` argument of `CreateSubscriptionForWorkspace` and
`CreateSubscriptionForGuestWorkspace` has no influence whatsoever: for any
two workspace identifiers and the same remaining inputs, the sent request
and the returned result are identical. -/
theorem workspace_id_has_no_influence (c : Client) (customerID w1 w2 : String)
    (t : TransportResult) :
    CreateSubscriptionForWorkspace c customerID w1 t =
      CreateSubscriptionForWorkspace c customerID w2 t ∧
    CreateSubscriptionForGuestWorkspace c customerID w1 t =
      CreateSubscriptionForGuestWorkspace c customerID w2 t :=
  ⟨rfl, rfl⟩

/-- C8: `request` never changes the client configuration: the `apiKey`,
`baseURL` and `httpClient` fields after any invocation, with any transport
outcome, equal the fields before it. -/
theorem request_preserves_client_config {α : Type} (decode : Json → α → α × Bool)
    (c : Client) (method path : String) (body : Option Json) (t : TransportResult)
    (dest : Option α) :
    (request decode c method path body t dest).client.apiKey = c.apiKey ∧
    (request decode c method path body t dest).client.baseURL = c.baseURL ∧
    (request decode c method path body t dest).client.httpClient = c.httpClient := by
  have h : (request decode c method path body t dest).client = c := by
    rcases t with msg | resp
    · rfl
    · by_cases h4 : 400 ≤ resp.statusCode
      · simp [request, h4]
      · rcases dest with _ | d
        · simp [request, h4]
        · by_cases hb : 0 < resp.body.text.length
          · cases hf : (unmarshalBody decode resp.body d).2 <;>
              simp [request, h4, hb, hf]
          · simp [request, h4, hb]
  exact ⟨by rw [h], by rw [h], by rw [h]⟩

/-- C5: marshalling an update-params value with exactly one field set
produces a JSON object holding only that field; nil pointers (and the
absent metadata map) are omitted entirely, never emitted as `null` or as
zero values — for `UpdateCustomerParams` and `UpdatePlanParams` alike. -/
theorem single_field_update_serializes_single_field :
    (∀ v, UpdateCustomerParams.toJson ⟨some v, none, none, []⟩ =
      Json.obj [("email", Json.str v)]) ∧
    (∀ v, UpdateCustomerParams.toJson ⟨none, some v, none, []⟩ =
      Json.obj [("name", Json.str v)]) ∧
    (∀ v, UpdateCustomerParams.toJson ⟨none, none, some v, []⟩ =
      Json.obj [("external_id", Json.str v)]) ∧
    (∀ k v rest, UpdateCustomerParams.toJson ⟨none, none, none, (k, v) :: rest⟩ =
      Json.obj [("metadata", metaJson ((k, v) :: rest))]) ∧
    (∀ v, UpdatePlanParams.toJson ⟨some v, none, none, none⟩ =
      Json.obj [("key", Json.str v)]) ∧
    (∀ v, UpdatePlanParams.toJson ⟨none, some v, none, none⟩ =
      Json.obj [("name", Json.str v)]) ∧
    (∀ v, UpdatePlanParams.toJson ⟨none, none, some v, none⟩ =
      Json.obj [("description", Json.str v)]) ∧
    (∀ b, UpdatePlanParams.toJson ⟨none, none, none, some b⟩ =
      Json.obj [("is_active", Json.bool b)]) := by
  refine ⟨fun v => rfl, fun v => rfl, fun v => rfl, fun k v rest => ?_,
    fun v => rfl, fun v => rfl, fun v => rfl, fun b => rfl⟩
  simp [UpdateCustomerParams.toJson]

/-- C7: `CreateCustomerForUser` is strictly sugar over `CreateCustomer`
with params `{Email: email, Name: name, ExternalID: "user:" ++ userID}`:
it sends the identical request, returns the created customer's ID with no
error on success, and the empty string together with an error on
failure. -/
theorem createCustomerForUser_is_sugar (c : Client) (uid : Int) (email name : String)
    (t : TransportResult) :
    (CreateCustomerForUser c uid email name t).1 =
      (CreateCustomer c ⟨email, name, "user:" ++ toString uid, []⟩ t).1 ∧
    (∀ cust, (CreateCustomer c ⟨email, name, "user:" ++ toString uid, []⟩ t).2 = .inr cust →
      (CreateCustomerForUser c uid email name t).2 = (cust.id, none)) ∧
    (∀ e, (CreateCustomer c ⟨email, name, "user:" ++ toString uid, []⟩ t).2 = .inl e →
      (CreateCustomerForUser c uid email name t).2.1 = "" ∧
      (CreateCustomerForUser c uid email name t).2.2.isSome = true) := by
  refine ⟨rfl, ?_, ?_⟩
  · intro cust h
    simp only [CreateCustomerForUser]
    rw [h]
  · intro e h
    simp only [CreateCustomerForUser]
    rw [h]
    exact ⟨rfl, rfl⟩

/-- Witness for C7 at a concrete successful call: the server answers 200
with a customer document, and the sugar wrapper returns exactly that
customer's ID with no error. -/
theorem createCustomerForUser_is_sugar_witness :
    (CreateCustomerForUser (NewClient "tedo_live_xxx") 7 "a@b.com" "Acme"
      (.response ⟨200, .json (.obj [("id", .str "cus_1"), ("email", .str "a@b.com")])⟩)).2 =
      ("cus_1", none) :=
  (createCustomerForUser_is_sugar (NewClient "tedo_live_xxx") 7 "a@b.com" "Acme"
      (.response ⟨200, .json (.obj [("id", .str "cus_1"), ("email", .str "a@b.com")])⟩)).2.1
    ⟨"cus_1", "a@b.com", "", "", [], [], "", ""⟩ rfl

/-- C1: for every response with status ≥ 400 whose body unmarshals as the
structured error record, `request` returns a structured error whose
`StatusCode` is the HTTP status and whose `Code`/`Message`/`Field` are
exactly the record's fields, never decodes a result, and leaves the
supplied destination untouched; moreover the record unmarshalled from a
body `{"code":c,"message":m,"field":f}` carries exactly those three
values. -/
theorem request_structured_error {α : Type} (decode : Json → α → α × Bool) (c : Client)
    (method path : String) (body : Option Json) (resp : Response) (dest : α) (r : Error)
    (code msg fld : String)
    (h4 : 400 ≤ resp.statusCode) (hu : unmarshalGoError resp.body = some r) :
    (request decode c method path body (.response resp) (some dest)).err =
      some (.api { statusCode := resp.statusCode, code := r.code,
                   message := r.message, field := r.field }) ∧
    (request decode c method path body (.response resp) (some dest)).dest = some dest ∧
    unmarshalGoError (.json (.obj [("code", .str code), ("message", .str msg),
        ("field", .str fld)])) =
      some { statusCode := 0, code := code, message := msg, field := fld } := by
  refine ⟨?_, ?_, rfl⟩
  · simp [request, h4, parseError, hu]
  · simp [request, h4]

/-- Witness for C1: a 404 response with a structured body yields an error
carrying status 404 and the body's code and message, and the `Customer`
destination stays at its zero value. -/
theorem request_structured_error_witness :
    (request decodeCustomer (NewClient "k") "GET" "/billing/v1/customers/cus_x" none
      (.response ⟨404, .json (.obj [("code", .str "not_found"),
        ("message", .str "no such customer")])⟩) (some Customer.zero)).err =
      some (.api { statusCode := 404, code := "not_found",
                   message := "no such customer", field := "" }) ∧
    (request decodeCustomer (NewClient "k") "GET" "/billing/v1/customers/cus_x" none
      (.response ⟨404, .json (.obj [("code", .str "not_found"),
        ("message", .str "no such customer")])⟩) (some Customer.zero)).dest =
      some Customer.zero ∧
    unmarshalGoError (.json (.obj [("code", .str "not_found"),
        ("message", .str "no such customer"), ("field", .str "")])) =
      some { statusCode := 0, code := "not_found", message := "no such customer", field := "" } :=
  request_structured_error decodeCustomer (NewClient "k") "GET" "/billing/v1/customers/cus_x"
    none ⟨404, .json (.obj [("code", .str "not_found"), ("message", .str "no such customer")])⟩
    Customer.zero ⟨0, "not_found", "no such customer", ""⟩ "not_found" "no such customer" ""
    (by decide) rfl

/-- C4: for every response with status ≥ 400 whose body does not unmarshal
as the structured error record, `request` returns an error that still
carries the HTTP status, whose message is the raw body text, and whose
code is the sentinel `"unknown_error"`; the destination again stays
untouched. -/
theorem request_unparseable_error {α : Type} (decode : Json → α → α × Bool) (c : Client)
    (method path : String) (body : Option Json) (resp : Response) (dest : α)
    (h4 : 400 ≤ resp.statusCode) (hu : unmarshalGoError resp.body = none) :
    (request decode c method path body (.response resp) (some dest)).err =
      some (.api { statusCode := resp.statusCode, code := "unknown_error",
                   message := resp.body.text, field := "" }) ∧
    (request decode c method path body (.response resp) (some dest)).dest = some dest := by
  constructor
  · simp [request, h4, parseError, hu]
  · simp [request, h4]

/-- Witness for C4: a 500 response with an empty (hence unparseable) body
yields status 500, code `unknown_error` and the empty message. -/
theorem request_unparseable_error_witness :
    (request decodeCustomer (NewClient "k") "GET" "/billing/v1/customers/cus_x" none
      (.response ⟨500, .invalid ""⟩) (some Customer.zero)).err =
      some (.api { statusCode := 500, code := "unknown_error", message := "", field := "" }) ∧
    (request decodeCustomer (NewClient "k") "GET" "/billing/v1/customers/cus_x" none
      (.response ⟨500, .invalid ""⟩) (some Customer.zero)).dest = some Customer.zero :=
  request_unparseable_error decodeCustomer (NewClient "k") "GET" "/billing/v1/customers/cus_x"
    none ⟨500, .invalid ""⟩ Customer.zero (by decide) rfl

/-- C6: `ListCustomers` issues a GET with no body on the customers path;
with params present the query holds `limit=<Limit>` exactly when
`Limit > 0` and `cursor=<Cursor>` exactly when `Cursor` is non-empty, in
that order, `&`-joined and `?`-prefixed; with nil params, or when neither
condition holds, the bare path is requested. -/
theorem listCustomers_query_assembly (c : Client) (p : ListCustomersParams)
    (t t' : TransportResult) :
    (ListCustomers c (some p) t).1.method = "GET" ∧
    (ListCustomers c (some p) t).1.body = none ∧
    (ListCustomers c (some p) t).1.url = c.baseURL ++ listCustomersPath (some p) ∧
    (ListCustomers c none t').1.url = c.baseURL ++ "/billing/v1/customers" ∧
    listCustomersPath (some p) =
      (if 0 < p.limit then
        (if p.cursor = "" then "/billing/v1/customers?limit=" ++ toString p.limit
         else "/billing/v1/customers?limit=" ++ toString p.limit ++ "&cursor=" ++ p.cursor)
       else
        (if p.cursor = "" then "/billing/v1/customers"
         else "/billing/v1/customers?cursor=" ++ p.cursor)) := by
  refine ⟨by simp [ListCustomers, request_sent], by simp [ListCustomers, request_sent],
    by simp [ListCustomers, request_sent],
    by simp [ListCustomers, request_sent, listCustomersPath], ?_⟩
  have hq : ("limit=" ++ toString p.limit) ≠ "" := append_ne_empty_left _ _ (by decide)
  by_cases hl : 0 < p.limit <;> by_cases hc : p.cursor = ""
  · simp [listCustomersPath, hl, hc, hq]
    rw [← String.append_assoc]
    rfl
  · have hq2 : ((("limit=" ++ toString p.limit) ++ "&") ++ "cursor=") ++ p.cursor ≠ "" :=
      append_ne_empty_left _ _ (append_ne_empty_left _ _ (append_ne_empty_left _ _ hq))
    simp [listCustomersPath, hl, hc, hq, hq2, String.append_assoc]
    rw [← String.append_assoc]
    rfl
  · simp [listCustomersPath, hl, hc]
  · have hq3 : (("" ++ "cursor=") ++ p.cursor) ≠ "" := append_ne_empty_left _ _ (by decide)
    simp [listCustomersPath, hl, hc, hq3, String.append_assoc]
    rw [← String.append_assoc]
    rfl

/-- C9: when the server answers any error status, `CreateCustomerForUser`
and `createSubscriptionWithPlan` return a `fmt.Errorf`-wrapped error around
the structured API error, and the direct-type-assertion classification
helpers all answer `false` on that wrapped error, although the underlying
error is structured and (for a 404) would satisfy `IsNotFound`. -/
theorem wrappers_defeat_classification (c : Client) (uid : Int)
    (email name customerID planKey priceKey : String) (resp : Response)
    (h4 : 400 ≤ resp.statusCode) :
    (CreateCustomerForUser c uid email name (.response resp)).2 =
      ("", some (.wrapped "failed to create billing customer for user"
        (.api (parseError resp.statusCode resp.body)))) ∧
    (createSubscriptionWithPlan c customerID planKey priceKey (.response resp)).2 =
      ("", some (.wrapped "failed to create subscription"
        (.api (parseError resp.statusCode resp.body)))) ∧
    IsNotFound (some (.wrapped "failed to create billing customer for user"
      (.api (parseError resp.statusCode resp.body)))) = false ∧
    IsValidationError (some (.wrapped "failed to create billing customer for user"
      (.api (parseError resp.statusCode resp.body)))) = false ∧
    IsUnauthorized (some (.wrapped "failed to create billing customer for user"
      (.api (parseError resp.statusCode resp.body)))) = false ∧
    IsNotFound (some (.wrapped "failed to create subscription"
      (.api (parseError resp.statusCode resp.body)))) = false ∧
    (resp.statusCode = 404 →
      IsNotFound (some (.api (parseError resp.statusCode resp.body))) = true) := by
  refine ⟨?_, ?_, rfl, rfl, rfl, rfl, ?_⟩
  · simp [CreateCustomerForUser, CreateCustomer, request, h4]
  · simp [createSubscriptionWithPlan, CreateSubscription, request, h4]
  · intro h404
    simp [IsNotFound, parseError_statusCode, h404]

/-- Witness for C9: against a mock 404 with a structured body, the wrapper
returns the wrapped error, the helper rejects the wrapped error, yet
accepts the underlying structured error. -/
theorem wrappers_defeat_classification_witness :
    (CreateCustomerForUser (NewClient "k") 7 "a@b.com" "Acme"
      (.response ⟨404, .json (.obj [("code", .str "not_found"),
        ("message", .str "no such customer")])⟩)).2 =
      ("", some (.wrapped "failed to create billing customer for user"
        (.api ⟨404, "not_found", "no such customer", ""⟩))) ∧
    IsNotFound (some (.wrapped "failed to create billing customer for user"
      (.api ⟨404, "not_found", "no such customer", ""⟩))) = false ∧
    IsNotFound (some (.api (⟨404, "not_found", "no such customer", ""⟩ : Error))) = true := by
  have h := wrappers_defeat_classification (NewClient "k") 7 "a@b.com" "Acme"
    "cus_1" "free" "free_monthly_EUR"
    ⟨404, .json (.obj [("code", .str "not_found"), ("message", .str "no such customer")])⟩
    (by decide)
  exact ⟨h.1, h.2.2.1, h.2.2.2.2.2.2 rfl⟩

/-- C2 (amended): for a response with status < 400: with no destination the
call decodes nothing and returns no error; with a destination and an empty
body the destination is untouched and no error is returned; with a
destination, a non-empty body and a successful JSON deserialization the
destination becomes exactly the decoded value with no error (and the
decoded `UsageSummary` of a full document carries exactly the document's
field values); but when a non-empty body fails to deserialize, `request`
returns a decode error — the case the original claim's unconditional
"no error" misses — and the destination holds whatever the partial
unmarshal wrote: mismatched members are skipped and the remaining members
still written, as the last conjunct shows on a concrete mixed-type
document. -/
theorem request_success_decode {α : Type} (decode : Json → α → α × Bool) (c : Client)
    (method path : String) (body : Option Json) (resp : Response) (d : α)
    (hlt : resp.statusCode < 400) :
    ((request decode c method path body (.response resp) none).dest = none ∧
     (request decode c method path body (.response resp) none).err = none) ∧
    (resp.body.text = "" →
      (request decode c method path body (.response resp) (some d)).dest = some d ∧
      (request decode c method path body (.response resp) (some d)).err = none) ∧
    (∀ d', 0 < resp.body.text.length → unmarshalBody decode resp.body d = (d', true) →
      (request decode c method path body (.response resp) (some d)).dest = some d' ∧
      (request decode c method path body (.response resp) (some d)).err = none) ∧
    (∀ d', 0 < resp.body.text.length → unmarshalBody decode resp.body d = (d', false) →
      (request decode c method path body (.response resp) (some d)).dest = some d' ∧
      (request decode c method path body (.response resp) (some d)).err =
        some (.wrapped "decode response" (.other "json unmarshal failure"))) ∧
    (∀ sid pk (tu rc : Int) ps pe,
      decodeUsageSummary (.obj [("subscription_id", .str sid), ("product_key", .str pk),
        ("total_usage", .num tu), ("record_count", .num rc), ("period_start", .str ps),
        ("period_end", .str pe)]) UsageSummary.zero =
      (⟨sid, pk, tu, rc, ps, pe⟩, true)) ∧
    (∀ pk, decodeUsageSummary (.obj [("subscription_id", .num 5), ("product_key", .str pk)])
      UsageSummary.zero = ({ UsageSummary.zero with productKey := pk }, false)) := by
  have h4 : ¬ 400 ≤ resp.statusCode := by omega
  refine ⟨?_, ?_, ?_, ?_, ?_, ?_⟩
  · constructor <;> simp [request, h4]
  · intro hb
    have hb' : ¬ 0 < resp.body.text.length := by simp [hb]
    constructor <;> simp [request, h4, hb']
  · intro d' hb hm
    constructor <;> simp [request, h4, hb, hm]
  · intro d' hb hm
    constructor <;> simp [request, h4, hb, hm]
  · intro sid pk tu rc ps pe
    rfl
  · intro pk
    rfl

set_option maxRecDepth 8192 in
/-- Witness for C2: a 200 response with a full usage-summary document
decodes into exactly that summary with no error. -/
theorem request_success_decode_witness :
    (request decodeUsageSummary (NewClient "k") "GET" "/billing/v1/usage" none
      (.response ⟨200, .json (.obj [("subscription_id", .str "sub_1"),
        ("product_key", .str "api_calls"), ("total_usage", .num 42),
        ("record_count", .num 3), ("period_start", .str "2024-01-01"),
        ("period_end", .str "2024-02-01")])⟩) (some UsageSummary.zero)).dest =
      some ⟨"sub_1", "api_calls", 42, 3, "2024-01-01", "2024-02-01"⟩ ∧
    (request decodeUsageSummary (NewClient "k") "GET" "/billing/v1/usage" none
      (.response ⟨200, .json (.obj [("subscription_id", .str "sub_1"),
        ("product_key", .str "api_calls"), ("total_usage", .num 42),
        ("record_count", .num 3), ("period_start", .str "2024-01-01"),
        ("period_end", .str "2024-02-01")])⟩) (some UsageSummary.zero)).err = none := by
  have h := request_success_decode decodeUsageSummary (NewClient "k") "GET" "/billing/v1/usage"
    none ⟨200, .json (.obj [("subscription_id", .str "sub_1"),
      ("product_key", .str "api_calls"), ("total_usage", .num 42), ("record_count", .num 3),
      ("period_start", .str "2024-01-01"), ("period_end", .str "2024-02-01")])⟩
    UsageSummary.zero (by decide)
  exact h.2.2.1 ⟨"sub_1", "api_calls", 42, 3, "2024-01-01", "2024-02-01"⟩ (by decide) rfl

/-- C2 counterexample: a 200 response with the non-empty non-JSON body
`"oops"` and a supplied destination makes `request` return a decode error,
refuting the original claim's unconditional "request returns no error". -/
theorem request_success_decode_counterexample :
    ¬ ((request decodeUsageSummary (NewClient "k") "GET" "/billing/v1/usage" none
      (.response ⟨200, .invalid "oops"⟩) (some UsageSummary.zero)).err = none) := by
  decide

end Tedo
